import Mathlib

/-!
Stack-trace backend (Windows): records, comparison, capture and symbol queries.

A shallow embedding of `include/boost/stacktrace/detail/backend_windows.hpp`.

* Raw addresses (`void*`), COM interface pointers and character units are natural
  numbers; the null pointer is `0`.
* A `backtrace_holder` is the header field `frames_count` followed by the slots of the
  caller's memory block (`buffer`, as many slots as the block has room for).
* Objects are compared by address (`this == &rhs`), so the comparison operators work on
  a table of objects indexed by address.
* The debug engine is an external collaborator: a `Service` is a state machine whose
  answers the code consumes; every call the code issues is appended to a log.
* A null dereference, a read outside a record's block and a C-string read that runs past
  its array are faults; an uninitialised local array holds the prior stack content.
-/

set_option linter.dupNamespace false

namespace Stacktrace

/-! ## Raw frame store -/

/-- The variable-length record `backtrace_holder`: the count and the trailing slots
`void* buffer[]` of the memory block it was constructed in. -/
structure backtrace_holder where
  frames_count : Nat
  buffer : List Nat
deriving DecidableEq, Repr

/-- Number of address slots the memory block offers after the header. -/
def backtrace_holder.capacity (d : backtrace_holder) : Nat := d.buffer.length

/-- The record's invariant: the count does not exceed the room of its block. -/
def backtrace_holder.valid (d : backtrace_holder) : Prop := d.frames_count ≤ d.capacity

instance (d : backtrace_holder) : Decidable d.valid :=
  inferInstanceAs (Decidable (d.frames_count ≤ d.buffer.length))

/-- The range `[buffer, buffer + frames_count)`. -/
def backtrace_holder.frames (d : backtrace_holder) : List Nat :=
  d.buffer.take d.frames_count

/-- The algorithm `std::copy(first, last, out)`: the source range is stored slot by slot
over the destination. A store past the end of the destination block is outside the
model; the copy stops there. -/
def std_copy : List Nat → List Nat → List Nat
  | [], out => out
  | x :: xs, _ :: out => x :: std_copy xs out
  | _ :: _, [] => []

/-- The copy constructor `backtrace_holder(const backtrace_holder& d)`, run in the
memory block whose slots currently hold `dst`. -/
def backtrace_holder.copy (dst : List Nat) (d : backtrace_holder) : backtrace_holder :=
  let frames_count := d.frames_count
  { frames_count := frames_count
    buffer := std_copy (d.buffer.take frames_count) dst }

/-- The object `backend`; `data_` is the record its pointer member refers to. -/
structure backend where
  data_ : backtrace_holder
deriving DecidableEq, Repr

/-- The accessor `backend::get_address`: `data_->buffer[frame]`, unguarded. A read outside
the block has no value. -/
def backend.get_address (self : backend) (frame : Nat) : Option Nat :=
  self.data_.buffer[frame]?

/-! ## Comparison -/

/-- The algorithm `std::equal(first1, last1, first2)`. The second range is given by its
start only; running off the second block counts as a mismatch. -/
def std_equal : List Nat → List Nat → Bool
  | [], _ => true
  | x :: xs, y :: ys => if x = y then std_equal xs ys else false
  | _ :: _, [] => false

/-- The algorithm `std::lexicographical_compare(first1, last1, first2, last2)`. -/
def lexicographical_compare : List Nat → List Nat → Bool
  | x :: xs, y :: ys =>
    if x < y then true
    else if y < x then false
    else lexicographical_compare xs ys
  | [], _ :: _ => true
  | _, [] => false

/-- The objects of a program state, by address. -/
abbrev Objects := Nat → backend

/-- The operator `backend::operator<`, with `this` and `&rhs` as addresses. -/
def operator_lt (m : Objects) (this rhs : Nat) : Bool :=
  if (m this).data_.frames_count ≠ (m rhs).data_.frames_count then
    decide ((m this).data_.frames_count < (m rhs).data_.frames_count)
  else if this = rhs then
    false
  else
    lexicographical_compare (m this).data_.frames (m rhs).data_.frames

/-- The operator `backend::operator==`, with `this` and `&rhs` as addresses. -/
def operator_eq (m : Objects) (this rhs : Nat) : Bool :=
  if (m this).data_.frames_count ≠ (m rhs).data_.frames_count then
    false
  else if this = rhs then
    true
  else
    std_equal (m this).data_.frames (m rhs).data_.buffer

/-! ## Capture -/

/-- Narrowing to the 32-bit unsigned `ULONG`. -/
def to_ULONG (n : Nat) : Nat := n % 2 ^ 32

/-- Sizes of the target: width of `std::size_t`, `sizeof(backtrace_holder)` and
`sizeof(void*)`. -/
structure Platform where
  size_t_bits : Nat
  sizeof_backtrace_holder : Nat
  sizeof_void_ptr : Nat
deriving DecidableEq, Repr

/-- Subtraction of `std::size_t` values, wrapping around. -/
def size_t_sub (P : Platform) (a b : Nat) : Nat :=
  (a + 2 ^ P.size_t_bits - b) % 2 ^ P.size_t_bits

/-- What the native walker `CaptureStackBackTrace` hands back: the returned count, the
addresses it stored at the start of the buffer and the value stored in the hash
out-parameter. -/
structure WalkAnswer where
  count : Nat
  frames : List Nat
  hash : Nat
deriving DecidableEq, Repr

/-- The native walker, a function of `FramesToSkip` and `FramesToCapture`. -/
abbrev Walker := Nat → Nat → WalkAnswer

/-- Contents of a block of `buf.length` units after a callee stored `data` from its
start; the callee knows the block's size and stays inside it. -/
def store (buf data : List Nat) : List Nat :=
  (data ++ buf.drop data.length).take buf.length

/-- The `FramesToCapture` argument of the constructor:
`static_cast<ULONG_>((size - sizeof(backtrace_holder)) / sizeof(void*))`. -/
def max_frames (P : Platform) (size : Nat) : Nat :=
  to_ULONG (size_t_sub P size P.sizeof_backtrace_holder / P.sizeof_void_ptr)

/-- The constructor `backend::backend(void* memory, std::size_t size, std::size_t& hash_code)`.
`memory` gives the slots of the block after the header; `hash_combine` is
`boost::hash_combine`. Returns the object and the final `hash_code`. -/
def backend.backend (P : Platform) (CaptureStackBackTrace : Walker)
    (hash_combine : Nat → Nat → Nat) (memory : List Nat) (size : Nat) : backend × Nat :=
  let data_ : backtrace_holder := { frames_count := 0, buffer := memory }
  let hash_code := 0
  let a := CaptureStackBackTrace 0 (max_frames P size)
  let data_ : backtrace_holder :=
    { frames_count := a.count, buffer := store data_.buffer a.frames }
  let hc := to_ULONG a.hash
  ({ data_ := data_ }, hash_combine hash_code hc)

/-! ## Debug engine -/

/-- Status codes; `S_OK` is zero. -/
abbrev HRESULT := Nat

/-- The success status. -/
def S_OK : HRESULT := 0

/-- Interfaces asked for through `QueryInterface`. -/
inductive Iid where
  | IDebugControl
  | IDebugSymbols
deriving DecidableEq, Repr

/-- Answer of a call that hands out an interface pointer: the status and the value the
out-parameter holds afterwards. -/
structure ComAnswer where
  hr : HRESULT
  ptr : Nat
deriving DecidableEq, Repr

/-- Answer of `GetNameByOffset`: status, the units stored in the name buffer and the
value of the size out-parameter afterwards. -/
structure NameAnswer where
  hr : HRESULT
  data : List Nat
  size : Nat
deriving DecidableEq, Repr

/-- Answer of `GetLineByOffset`: status, the value of the line out-parameter, the units
stored in the file buffer and the value of the file-size out-parameter. -/
structure LineAnswer where
  hr : HRESULT
  line : Nat
  data : List Nat
  size : Nat
deriving DecidableEq, Repr

/-- The debug engine as a state machine over `σ`. Interface methods take the interface
pointer they are invoked on. `GetLineByOffset` takes the offset, whether a line pointer is
passed, whether a file buffer is passed, the file buffer size and whether a file-size
pointer is passed. -/
structure Service (σ : Type) where
  CoInitializeEx : σ → σ
  DebugCreate : σ → ComAnswer × σ
  QueryInterface : σ → Nat → Iid → ComAnswer × σ
  AttachProcess : σ → Nat → HRESULT × σ
  WaitForEvent : σ → Nat → HRESULT × σ
  GetNameByOffset : σ → Nat → Nat → Nat → NameAnswer × σ
  GetLineByOffset : σ → Nat → Nat → Bool → Bool → Nat → Bool → LineAnswer × σ
  Release : σ → Nat → σ

/-- One call issued to the platform. -/
inductive Call where
  | CoInitializeEx
  | DebugCreate
  | QueryInterface (this : Nat) (iid : Iid)
  | AttachProcess (this : Nat)
  | WaitForEvent (this : Nat)
  | GetNameByOffset (this offset bufferSize : Nat)
  | GetLineByOffset (this offset : Nat) (line fileBuffer : Bool) (fileBufferSize : Nat)
      (fileSize : Bool)
  | Release (this : Nat)
deriving DecidableEq, Repr

/-- Whether a call is a name or line query. -/
def Call.isQuery : Call → Bool
  | .GetNameByOffset _ _ _ => true
  | .GetLineByOffset _ _ _ _ _ _ => true
  | _ => false

/-- Whether a call belongs to establishing a session. -/
def Call.isAttach : Call → Bool
  | .CoInitializeEx => true
  | .DebugCreate => true
  | .QueryInterface _ _ => true
  | .AttachProcess _ => true
  | .WaitForEvent _ => true
  | _ => false

/-- State of the platform together with the calls issued so far, oldest first. -/
structure World (σ : Type) where
  svc : σ
  log : List Call
deriving DecidableEq, Repr

/-- The name and line queries among the calls issued so far. -/
def World.queries {σ : Type} (w : World σ) : List Call := w.log.filter Call.isQuery

/-- Result of running code that may dereference a null pointer or read outside its
block. -/
inductive Outcome (α : Type) where
  | ret (a : α)
  | fault
deriving DecidableEq, Repr

section calls
variable {σ : Type} (S : Service σ)

/-- Issue `CoInitializeEx(0, COINIT_MULTITHREADED)`. -/
def World.CoInitializeEx (w : World σ) : World σ :=
  { svc := S.CoInitializeEx w.svc, log := w.log ++ [Call.CoInitializeEx] }

/-- Issue `DebugCreate`. -/
def World.DebugCreate (w : World σ) : ComAnswer × World σ :=
  let r := S.DebugCreate w.svc
  (r.1, { svc := r.2, log := w.log ++ [Call.DebugCreate] })

/-- Issue `this->QueryInterface(iid, out)`. -/
def World.QueryInterface (w : World σ) (this : Nat) (iid : Iid) : ComAnswer × World σ :=
  let r := S.QueryInterface w.svc this iid
  (r.1, { svc := r.2, log := w.log ++ [Call.QueryInterface this iid] })

/-- Issue `this->AttachProcess(0, GetCurrentProcessId(), NONINVASIVE | NO_SUSPEND)`. -/
def World.AttachProcess (w : World σ) (this : Nat) : HRESULT × World σ :=
  let r := S.AttachProcess w.svc this
  (r.1, { svc := r.2, log := w.log ++ [Call.AttachProcess this] })

/-- Issue `this->WaitForEvent(DEBUG_WAIT_DEFAULT, INFINITE)`. -/
def World.WaitForEvent (w : World σ) (this : Nat) : HRESULT × World σ :=
  let r := S.WaitForEvent w.svc this
  (r.1, { svc := r.2, log := w.log ++ [Call.WaitForEvent this] })

/-- Issue `this->GetNameByOffset(offset, buffer, bufferSize, &size, 0)`. -/
def World.GetNameByOffset (w : World σ) (this offset bufferSize : Nat) :
    NameAnswer × World σ :=
  let r := S.GetNameByOffset w.svc this offset bufferSize
  (r.1, { svc := r.2, log := w.log ++ [Call.GetNameByOffset this offset bufferSize] })

/-- Issue `this->GetLineByOffset(offset, line, fileBuffer, fileBufferSize, fileSize, 0)`. -/
def World.GetLineByOffset (w : World σ) (this offset : Nat) (line fileBuffer : Bool)
    (fileBufferSize : Nat) (fileSize : Bool) : LineAnswer × World σ :=
  let r := S.GetLineByOffset w.svc this offset line fileBuffer fileBufferSize fileSize
  (r.1, { svc := r.2,
          log := w.log ++ [Call.GetLineByOffset this offset line fileBuffer fileBufferSize fileSize] })

/-- Issue `this->Release()`. -/
def World.Release (w : World σ) (this : Nat) : World σ :=
  { svc := S.Release w.svc this, log := w.log ++ [Call.Release this] }

/-! ## Symbol session -/

/-- The class `com_holder<T>`: the interface pointer it holds, null when absent. -/
structure com_holder where
  holder_ : Nat
deriving DecidableEq, Repr

/-- The method `com_holder::is_inited`: `!!holder_`. -/
def com_holder.is_inited (h : com_holder) : Bool := h.holder_ != 0

/-- The method `com_holder::reset`: releases the interface when one is held; the pointer
member is left as it is. -/
def com_holder.reset (h : com_holder) (w : World σ) : World σ :=
  if h.holder_ ≠ 0 then w.Release S h.holder_ else w

/-- The destructor `~com_holder`: `reset()`. -/
def com_holder.destroy (h : com_holder) (w : World σ) : World σ :=
  h.reset S w

/-- The function `try_init_com`. Returns the outcome, the caller's holder `idebug_` as the
call leaves it and the world afterwards. The locals `icontrol` and `iclient` are destroyed
in that order on every return. `iclient->` and `icontrol->` dereference the held pointer:
a null pointer there is a fault. -/
def try_init_com (idebug_ : com_holder) (w : World σ) :
    Outcome Bool × com_holder × World σ :=
  if idebug_.is_inited then
    (.ret true, idebug_, w)
  else
    let w := w.CoInitializeEx S
    let r := w.DebugCreate S
    let iclient : com_holder := { holder_ := r.1.ptr }
    let w := r.2
    if iclient.holder_ = 0 then
      (.fault, idebug_, w)
    else
      let r := w.QueryInterface S iclient.holder_ Iid.IDebugControl
      let icontrol : com_holder := { holder_ := r.1.ptr }
      let w := r.2
      let r := w.AttachProcess S iclient.holder_
      let res1 := decide (S_OK = r.1)
      let w := r.2
      if !res1 then
        (.ret false, idebug_, iclient.destroy S (icontrol.destroy S w))
      else if icontrol.holder_ = 0 then
        (.fault, idebug_, w)
      else
        let r := w.WaitForEvent S icontrol.holder_
        let res2 := decide (S_OK = r.1)
        let w := r.2
        if !res2 then
          (.ret false, idebug_, iclient.destroy S (icontrol.destroy S w))
        else
          let r := w.QueryInterface S iclient.holder_ Iid.IDebugSymbols
          let idebug_ : com_holder := { holder_ := r.1.ptr }
          let res := decide (S_OK = r.1.hr)
          let w := r.2
          if !res then
            let w := idebug_.reset S w
            (.ret false, idebug_, iclient.destroy S (icontrol.destroy S w))
          else
            (.ret true, idebug_, iclient.destroy S (icontrol.destroy S w))

/-! ## Symbol queries -/

/-- Reading a character array as a C string, as `result = name` does: the units before
the first zero. The read does not know where the array ends; when the array holds no zero
it runs past the end, which has no value here. -/
def c_str : List Nat → Option (List Nat)
  | [] => none
  | c :: cs => if c = 0 then some [] else (c_str cs).map (fun t => c :: t)

/-- The local array `char name[256]` after `name[0] = 0`. The units `name[1]` to
`name[255]` are not initialised: they hold whatever the stack held, given by `stack`. -/
def name_init (stack : Nat → Nat) : List Nat :=
  0 :: (List.range 255).map (fun i => stack (i + 1))

/-- The member function `backend::get_name`; `stack` is the prior content of the stack
where the local array `name` is placed. -/
def backend.get_name (self : Stacktrace.backend) (stack : Nat → Nat) (frame : Nat)
    (w : World σ) :
    Outcome (List Nat) × World σ :=
  let result : List Nat := []
  if frame ≥ self.data_.frames_count then
    (.ret result, w)
  else
    match try_init_com S { holder_ := 0 } w with
    | (.fault, _, w) => (.fault, w)
    | (.ret false, idebug_, w) => (.ret result, idebug_.destroy S w)
    | (.ret true, idebug_, w) =>
      match self.data_.buffer[frame]? with
      | none => (.fault, w)
      | some offset =>
        if idebug_.holder_ = 0 then
          (.fault, w)
        else
          let r := w.GetNameByOffset S idebug_.holder_ offset (name_init stack).length
          let name := store (name_init stack) r.1.data
          let size := to_ULONG r.1.size
          let res := decide (S_OK = r.1.hr)
          let w := r.2
          if !res && size != 0 then
            let result := List.replicate size 0
            let r := w.GetNameByOffset S idebug_.holder_ offset (to_ULONG result.length)
            let result := store result r.1.data
            let res := decide (S_OK = r.1.hr)
            let w := r.2
            let result := if !res then [] else result
            (.ret result, idebug_.destroy S w)
          else
            match (if res then c_str name else some result) with
            | none => (.fault, w)
            | some result =>
              let result := if !res then [] else result
              (.ret result, idebug_.destroy S w)

/-- The member function `backend::get_source_file`; `stack` is the prior content of the
stack where the local array `name` is placed. -/
def backend.get_source_file (self : Stacktrace.backend) (stack : Nat → Nat) (frame : Nat)
    (w : World σ) :
    Outcome (List Nat) × World σ :=
  let result : List Nat := []
  if frame ≥ self.data_.frames_count then
    (.ret result, w)
  else
    match try_init_com S { holder_ := 0 } w with
    | (.fault, _, w) => (.fault, w)
    | (.ret false, idebug_, w) => (.ret result, idebug_.destroy S w)
    | (.ret true, idebug_, w) =>
      match self.data_.buffer[frame]? with
      | none => (.fault, w)
      | some offset =>
        if idebug_.holder_ = 0 then
          (.fault, w)
        else
          let r := w.GetLineByOffset S idebug_.holder_ offset false true (name_init stack).length true
          let name := store (name_init stack) r.1.data
          let size := to_ULONG r.1.size
          let res := decide (S_OK = r.1.hr)
          let w := r.2
          if !res && size != 0 then
            let result := List.replicate size 0
            let r := w.GetLineByOffset S idebug_.holder_ offset false true
              (to_ULONG result.length) true
            let result := store result r.1.data
            let res := decide (S_OK = r.1.hr)
            let w := r.2
            let result := if !res then [] else result
            (.ret result, idebug_.destroy S w)
          else
            match (if res then c_str name else some result) with
            | none => (.fault, w)
            | some result =>
              let result := if !res then [] else result
              (.ret result, idebug_.destroy S w)

/-- The member function `backend::get_source_line`. The call's arguments dereference
`idebug_` and read `data_->buffer[frame]`; there is no check of `frame`. -/
def backend.get_source_line (self : Stacktrace.backend) (frame : Nat) (w : World σ) :
    Outcome Nat × World σ :=
  match try_init_com S { holder_ := 0 } w with
  | (.fault, _, w) => (.fault, w)
  | (.ret false, idebug_, w) => (.ret 0, idebug_.destroy S w)
  | (.ret true, idebug_, w) =>
    if idebug_.holder_ = 0 then
      (.fault, w)
    else
      match self.data_.buffer[frame]? with
      | none => (.fault, w)
      | some offset =>
        let r := w.GetLineByOffset S idebug_.holder_ offset true false 0 false
        let line_num := to_ULONG r.1.line
        let is_ok := decide (S_OK = r.1.hr)
        let w := r.2
        (.ret (if is_ok then line_num else 0), idebug_.destroy S w)

end calls

/-! ## Concrete inputs -/

/-- Five objects: at address 1 a record of two frames in a block of three slots, at
address 2 a record with the same two frames in a block of four slots, at address 3 the
copy of the first into a zeroed block of five slots, at address 4 a record of two frames
with a larger second address, at address 5 a record of three frames; empty records
elsewhere. -/
def sample_objects : Objects := fun a =>
  if a = 1 then { data_ := { frames_count := 2, buffer := [4096, 8192, 99] } }
  else if a = 2 then { data_ := { frames_count := 2, buffer := [4096, 8192, 7, 7] } }
  else if a = 3 then
    { data_ := backtrace_holder.copy [0, 0, 0, 0, 0]
        { frames_count := 2, buffer := [4096, 8192, 99] } }
  else if a = 4 then { data_ := { frames_count := 2, buffer := [4096, 9000] } }
  else if a = 5 then { data_ := { frames_count := 3, buffer := [1, 2, 3] } }
  else { data_ := { frames_count := 0, buffer := [] } }

/-- A 64-bit target: eight-byte header, eight-byte pointers. -/
def win64 : Platform :=
  { size_t_bits := 64, sizeof_backtrace_holder := 8, sizeof_void_ptr := 8 }

/-- A walker that sees a stack of three frames and honours `FramesToCapture`. -/
def sample_walker : Walker := fun _ n =>
  { count := min n 3, frames := [4096, 8192, 12288].take (min n 3), hash := 5 }

/-- A failure status (`E_FAIL`). -/
def E_FAIL : HRESULT := 0x80004005

/-- A debug engine whose state counts the queries answered. `created` is the answer of
`DebugCreate`, `attached` the status of `AttachProcess`; every other step succeeds. Names
are `main`, files `a.c`, lines `42`; a name or file buffer under five units is too
small. -/
def sample_service (created : ComAnswer) (attached : HRESULT) : Service Nat where
  CoInitializeEx s := s
  DebugCreate s := (created, s)
  QueryInterface s _ iid :=
    match iid with
    | .IDebugControl => ({ hr := S_OK, ptr := 12 }, s)
    | .IDebugSymbols => ({ hr := S_OK, ptr := 13 }, s)
  AttachProcess s _ := (attached, s)
  WaitForEvent s _ := (S_OK, s)
  GetNameByOffset s _ _ bufferSize :=
    if bufferSize < 5 then ({ hr := E_FAIL, data := [], size := 5 }, s + 1)
    else ({ hr := S_OK, data := [109, 97, 105, 110, 0], size := 5 }, s + 1)
  GetLineByOffset s _ _ _ fileBuffer fileBufferSize _ :=
    if fileBuffer && decide (fileBufferSize < 5) then
      ({ hr := E_FAIL, line := 42, data := [], size := 5 }, s + 1)
    else if fileBuffer then
      ({ hr := S_OK, line := 42, data := [97, 46, 99, 0], size := 5 }, s + 1)
    else
      ({ hr := S_OK, line := 42, data := [], size := 0 }, s + 1)
  Release s _ := s

/-- The engine with every step succeeding. -/
def working_service : Service Nat := sample_service { hr := S_OK, ptr := 11 } S_OK

/-- The engine whose `AttachProcess` is refused. -/
def refusing_service : Service Nat := sample_service { hr := S_OK, ptr := 11 } E_FAIL

/-- The engine whose `DebugCreate` fails and leaves the client pointer null. -/
def absent_service : Service Nat := sample_service { hr := E_FAIL, ptr := 0 } S_OK

/-- A record of one captured frame in a block of two slots; the second slot holds a
leftover word. -/
def sample_backend : backend :=
  { data_ := { frames_count := 1, buffer := [4096, 8192] } }

/-- The world before any call. -/
def fresh_world : World Nat := { svc := 0, log := [] }

/-- Prior stack content in which no unit is zero. -/
def sample_stack : Nat → Nat := fun i => i % 7 + 1

/-- The working engine, except that the first query it answers for a name or a file
fails and asks for five units; later queries succeed with `main` and `a.c`, zero
terminated and padded to five units. -/
def retrying_service : Service Nat :=
  { working_service with
    GetNameByOffset := fun s _ _ _ =>
      if s = 0 then ({ hr := E_FAIL, data := [], size := 5 }, s + 1)
      else ({ hr := S_OK, data := [109, 97, 105, 110, 0], size := 5 }, s + 1)
    GetLineByOffset := fun s _ _ _ fileBuffer _ _ =>
      if fileBuffer && decide (s = 0) then
        ({ hr := E_FAIL, line := 42, data := [], size := 5 }, s + 1)
      else if fileBuffer then
        ({ hr := S_OK, line := 42, data := [97, 46, 99, 0, 0], size := 5 }, s + 1)
      else
        ({ hr := S_OK, line := 42, data := [], size := 0 }, s + 1) }

theorem std_equal_iff (xs ys : List Nat) :
    std_equal xs ys = true ↔ xs = ys.take xs.length ∧ xs.length ≤ ys.length := by
  induction xs generalizing ys with
  | nil => simp [std_equal]
  | cons x xs ih =>
    cases ys with
    | nil => simp [std_equal]
    | cons y ys =>
      by_cases h : x = y
      · simp [std_equal, h, ih]
      · simp [std_equal, h]

theorem std_copy_eq (xs dst : List Nat) (h : xs.length ≤ dst.length) :
    std_copy xs dst = xs ++ dst.drop xs.length := by
  induction xs generalizing dst with
  | nil => simp [std_copy]
  | cons x xs ih =>
    cases dst with
    | nil => simp at h
    | cons d dst =>
      simp only [List.length_cons, Nat.add_le_add_iff_right] at h
      simp [std_copy, ih dst h]

theorem lexicographical_compare_iff_lex (xs ys : List Nat) :
    lexicographical_compare xs ys = true ↔ List.Lex (fun a b => a < b) xs ys := by
  induction xs generalizing ys with
  | nil =>
    cases ys with
    | nil => simp [lexicographical_compare]
    | cons y ys => simp [lexicographical_compare, List.Lex.nil]
  | cons x xs ih =>
    cases ys with
    | nil => simp [lexicographical_compare]
    | cons y ys =>
      rcases Nat.lt_trichotomy x y with h | h | h
      · simp only [lexicographical_compare, h, if_true, true_iff]
        exact List.Lex.rel h
      · subst h
        simp only [lexicographical_compare, Nat.lt_irrefl, if_false, ih]
        constructor
        · intro hl; exact List.Lex.cons hl
        · intro hl
          cases hl with
          | cons hl => exact hl
          | rel hr => exact absurd hr (Nat.lt_irrefl _)
      · have h1 : ¬ x < y := Nat.lt_asymm h
        simp only [lexicographical_compare, h1, h, if_true, if_false, Bool.false_eq_true,
          false_iff]
        intro hl
        cases hl with
        | cons hl => exact Nat.lt_irrefl _ h
        | rel hr => exact h1 hr

theorem lexicographical_compare_irrefl (xs : List Nat) :
    lexicographical_compare xs xs = false := by
  induction xs with
  | nil => simp [lexicographical_compare]
  | cons x xs ih => simp [lexicographical_compare, ih]

theorem lexicographical_compare_asymm (xs ys : List Nat)
    (h : lexicographical_compare xs ys = true) : lexicographical_compare ys xs = false := by
  induction xs generalizing ys with
  | nil =>
    cases ys with
    | nil => simp [lexicographical_compare]
    | cons y ys => simp [lexicographical_compare]
  | cons x xs ih =>
    cases ys with
    | nil => simp [lexicographical_compare] at h
    | cons y ys =>
      rcases Nat.lt_trichotomy x y with hxy | hxy | hxy
      · have h1 : ¬ y < x := Nat.lt_asymm hxy
        simp [lexicographical_compare, h1, hxy]
      · subst hxy
        simp only [lexicographical_compare, Nat.lt_irrefl, if_false] at h ⊢
        exact ih ys h
      · have h1 : ¬ x < y := Nat.lt_asymm hxy
        simp [lexicographical_compare, h1, hxy] at h

theorem lexicographical_compare_connex (xs ys : List Nat)
    (h1 : lexicographical_compare xs ys = false)
    (h2 : lexicographical_compare ys xs = false) : xs = ys := by
  induction xs generalizing ys with
  | nil =>
    cases ys with
    | nil => rfl
    | cons y ys => simp [lexicographical_compare] at h1
  | cons x xs ih =>
    cases ys with
    | nil => simp [lexicographical_compare] at h2
    | cons y ys =>
      rcases Nat.lt_trichotomy x y with hxy | hxy | hxy
      · simp [lexicographical_compare, hxy] at h1
      · subst hxy
        simp only [lexicographical_compare, Nat.lt_irrefl, if_false] at h1 h2
        rw [ih ys h1 h2]
      · simp [lexicographical_compare, hxy] at h2

theorem lexicographical_compare_trans (xs ys zs : List Nat)
    (h1 : lexicographical_compare xs ys = true)
    (h2 : lexicographical_compare ys zs = true) : lexicographical_compare xs zs = true := by
  induction xs generalizing ys zs with
  | nil =>
    cases ys with
    | nil => simp [lexicographical_compare] at h1
    | cons y ys =>
      cases zs with
      | nil => simp [lexicographical_compare] at h2
      | cons z zs => simp [lexicographical_compare]
  | cons x xs ih =>
    cases ys with
    | nil => simp [lexicographical_compare] at h1
    | cons y ys =>
      cases zs with
      | nil => simp [lexicographical_compare] at h2
      | cons z zs =>
        rcases Nat.lt_trichotomy x y with hxy | hxy | hxy
        · rcases Nat.lt_trichotomy y z with hyz | hyz | hyz
          · have : x < z := Nat.lt_trans hxy hyz
            simp [lexicographical_compare, this]
          · subst hyz
            simp [lexicographical_compare, hxy]
          · have : ¬ y < z := Nat.lt_asymm hyz
            simp [lexicographical_compare, this, hyz] at h2
        · subst hxy
          rcases Nat.lt_trichotomy x z with hyz | hyz | hyz
          · simp [lexicographical_compare, hyz]
          · subst hyz
            simp only [lexicographical_compare, Nat.lt_irrefl, if_false] at h1 h2 ⊢
            exact ih ys zs h1 h2
          · have : ¬ x < z := Nat.lt_asymm hyz
            simp [lexicographical_compare, this, hyz] at h2
        · have : ¬ x < y := Nat.lt_asymm hxy
          simp [lexicographical_compare, this, hxy] at h1

theorem frames_length (d : backtrace_holder) (h : d.valid) :
    d.frames.length = d.frames_count := by
  unfold backtrace_holder.valid backtrace_holder.capacity at h
  simp [backtrace_holder.frames, h]

theorem frames_eq_iff (a b : backtrace_holder) (hc : a.frames_count = b.frames_count) :
    a.frames = b.frames ↔ ∀ i, i < a.frames_count → a.buffer[i]? = b.buffer[i]? := by
  unfold backtrace_holder.frames
  rw [← hc]
  constructor
  · intro h i hi
    have := congrArg (fun l => l[i]?) h
    simpa [List.getElem?_take, hi] using this
  · intro h
    apply List.ext_getElem?
    intro i
    by_cases hi : i < a.frames_count
    · simp [List.getElem?_take, hi, h i hi]
    · simp [List.getElem?_take, hi]

theorem operator_eq_unfold (m : Objects) (p q : Nat) (hp : (m p).data_.valid)
    (hq : (m q).data_.valid) :
    operator_eq m p q = true ↔
      (m p).data_.frames_count = (m q).data_.frames_count ∧
        (m p).data_.frames = (m q).data_.frames := by
  unfold operator_eq
  by_cases hc : (m p).data_.frames_count = (m q).data_.frames_count
  · by_cases hpq : p = q
    · subst hpq; simp
    · simp only [hc, ne_eq, not_true_eq_false, if_false, hpq, true_and]
      rw [std_equal_iff, frames_length _ hp]
      unfold backtrace_holder.valid backtrace_holder.capacity at hq
      unfold backtrace_holder.frames
      rw [hc]
      constructor
      · rintro ⟨h1, _⟩
        exact h1
      · intro h
        exact ⟨h, hq⟩
  · simp [hc]

theorem operator_lt_unfold (m : Objects) (p q : Nat) :
    operator_lt m p q =
      if (m p).data_.frames_count ≠ (m q).data_.frames_count then
        decide ((m p).data_.frames_count < (m q).data_.frames_count)
      else lexicographical_compare (m p).data_.frames (m q).data_.frames := by
  unfold operator_lt
  by_cases hpq : p = q
  · subst hpq
    simp [lexicographical_compare_irrefl]
  · simp [hpq]

section session_facts
variable {σ : Type} (S : Service σ)

theorem reset_queries (h : com_holder) (w : World σ) :
    (h.reset S w).queries = w.queries := by
  unfold com_holder.reset
  split_ifs <;> simp [World.queries, World.Release, Call.isQuery]

theorem destroy_queries (h : com_holder) (w : World σ) :
    (h.destroy S w).queries = w.queries :=
  reset_queries S h w

theorem CoInitializeEx_queries (w : World σ) :
    (w.CoInitializeEx S).queries = w.queries := by
  simp [World.queries, World.CoInitializeEx, Call.isQuery]

theorem DebugCreate_queries (w : World σ) : (w.DebugCreate S).2.queries = w.queries := by
  simp [World.queries, World.DebugCreate, Call.isQuery]

theorem QueryInterface_queries (w : World σ) (this : Nat) (iid : Iid) :
    (w.QueryInterface S this iid).2.queries = w.queries := by
  simp [World.queries, World.QueryInterface, Call.isQuery]

theorem AttachProcess_queries (w : World σ) (this : Nat) :
    (w.AttachProcess S this).2.queries = w.queries := by
  simp [World.queries, World.AttachProcess, Call.isQuery]

theorem WaitForEvent_queries (w : World σ) (this : Nat) :
    (w.WaitForEvent S this).2.queries = w.queries := by
  simp [World.queries, World.WaitForEvent, Call.isQuery]

theorem try_init_com_queries (h : com_holder) (w : World σ) :
    (try_init_com S h w).2.2.queries = w.queries := by
  dsimp only [try_init_com]
  split_ifs <;>
    simp only [destroy_queries, reset_queries, CoInitializeEx_queries, DebugCreate_queries,
      QueryInterface_queries, AttachProcess_queries, WaitForEvent_queries]

theorem operator_lt_true_iff (m : Objects) (p q : Nat) :
    operator_lt m p q = true ↔
      (m p).data_.frames_count < (m q).data_.frames_count ∨
        ((m p).data_.frames_count = (m q).data_.frames_count ∧
          lexicographical_compare (m p).data_.frames (m q).data_.frames = true) := by
  rw [operator_lt_unfold]
  by_cases hc : (m p).data_.frames_count = (m q).data_.frames_count
  · simp [hc]
  · simp only [ne_eq, hc, not_false_eq_true, if_true, decide_eq_true_eq, false_and, or_false]

theorem operator_lt_false_iff (m : Objects) (p q : Nat) :
    operator_lt m p q = false ↔
      (m q).data_.frames_count < (m p).data_.frames_count ∨
        ((m p).data_.frames_count = (m q).data_.frames_count ∧
          lexicographical_compare (m p).data_.frames (m q).data_.frames = false) := by
  rw [operator_lt_unfold]
  by_cases hc : (m p).data_.frames_count = (m q).data_.frames_count
  · simp [hc]
  · simp only [ne_eq, hc, not_false_eq_true, if_true, decide_eq_false_iff_not, false_and,
      or_false]
    omega

theorem operator_lt_incomparable (m : Objects) (p q : Nat)
    (h1 : operator_lt m p q = false) (h2 : operator_lt m q p = false) :
    (m p).data_.frames_count = (m q).data_.frames_count ∧
      (m p).data_.frames = (m q).data_.frames := by
  rw [operator_lt_false_iff] at h1 h2
  rcases h1 with h1 | ⟨hc, h1⟩
  · rcases h2 with h2 | ⟨hc2, _⟩ <;> omega
  · rcases h2 with h2 | ⟨_, h2⟩
    · omega
    · exact ⟨hc, lexicographical_compare_connex _ _ h1 h2⟩

theorem store_length (buf data : List Nat) : (store buf data).length = buf.length := by
  unfold store
  simp only [List.length_take, List.length_append, List.length_drop]
  omega

end session_facts

/-! ## Comparison: the claims -/

/-- C4: on valid records `operator==` is true exactly when the counts agree and the
addresses agree slot by slot in capture order; it is reflexive and symmetric, so the
same-object shortcut never changes the result. -/
theorem operator_eq_spec (m : Objects) (p q : Nat) (hp : (m p).data_.valid)
    (hq : (m q).data_.valid) :
    (operator_eq m p q = true ↔
      (m p).data_.frames_count = (m q).data_.frames_count ∧
        ∀ i, i < (m p).data_.frames_count → (m p).get_address i = (m q).get_address i) ∧
    operator_eq m p p = true ∧
    operator_eq m p q = operator_eq m q p := by
  have key : operator_eq m p q = true ↔
      (m p).data_.frames_count = (m q).data_.frames_count ∧
        ∀ i, i < (m p).data_.frames_count → (m p).get_address i = (m q).get_address i := by
    rw [operator_eq_unfold m p q hp hq]
    constructor
    · rintro ⟨hc, hf⟩
      exact ⟨hc, (frames_eq_iff _ _ hc).1 hf⟩
    · rintro ⟨hc, hf⟩
      exact ⟨hc, (frames_eq_iff _ _ hc).2 hf⟩
  refine ⟨key, ?_, ?_⟩
  · simp [operator_eq]
  · rw [Bool.eq_iff_iff, operator_eq_unfold m p q hp hq, operator_eq_unfold m q p hq hp]
    constructor
    · rintro ⟨h1, h2⟩; exact ⟨h1.symm, h2.symm⟩
    · rintro ⟨h1, h2⟩; exact ⟨h1.symm, h2.symm⟩

/-- C5: `operator<` is true exactly when the left count is smaller, or the counts agree
and the left address sequence is lexicographically smaller; when the counts differ,
`operator==` is false and `operator<` is the comparison of the counts. -/
theorem operator_lt_spec (m : Objects) (p q : Nat) :
    (operator_lt m p q = true ↔
      (m p).data_.frames_count < (m q).data_.frames_count ∨
        ((m p).data_.frames_count = (m q).data_.frames_count ∧
          List.Lex (fun a b => a < b) (m p).data_.frames (m q).data_.frames)) ∧
    ((m p).data_.frames_count ≠ (m q).data_.frames_count →
      operator_eq m p q = false ∧
        operator_lt m p q = decide ((m p).data_.frames_count < (m q).data_.frames_count)) := by
  constructor
  · rw [operator_lt_unfold]
    by_cases hc : (m p).data_.frames_count = (m q).data_.frames_count
    · simp [hc, lexicographical_compare_iff_lex]
    · simp only [ne_eq, hc, not_false_eq_true, if_true, decide_eq_true_eq, false_and, or_false]
  · intro hc
    simp [operator_eq, operator_lt, hc]

/-- C6: `operator<` is a strict weak ordering. It is irreflexive, never holds both ways,
is transitive, and being unordered both ways is transitive; and on valid records (of
equal counts in particular) exactly one of `a < b`, `b < a`, `a == b` holds. -/
theorem operator_lt_strict_weak (m : Objects) (p q r : Nat) (hp : (m p).data_.valid)
    (hq : (m q).data_.valid) :
    operator_lt m p p = false ∧
    ¬ (operator_lt m p q = true ∧ operator_lt m q p = true) ∧
    (operator_lt m p q = true → operator_lt m q r = true → operator_lt m p r = true) ∧
    (operator_lt m p q = false → operator_lt m q p = false →
      operator_lt m q r = false → operator_lt m r q = false →
        operator_lt m p r = false ∧ operator_lt m r p = false) ∧
    ((operator_lt m p q = true ∧ operator_lt m q p = false ∧ operator_eq m p q = false) ∨
     (operator_lt m p q = false ∧ operator_lt m q p = true ∧ operator_eq m p q = false) ∨
     (operator_lt m p q = false ∧ operator_lt m q p = false ∧ operator_eq m p q = true)) := by
  have hirr : ∀ a, operator_lt m a a = false := by
    intro a
    rw [operator_lt_false_iff]
    exact Or.inr ⟨rfl, lexicographical_compare_irrefl _⟩
  have hasym : ∀ a b, operator_lt m a b = true → operator_lt m b a = false := by
    intro a b h
    rw [operator_lt_true_iff] at h
    rw [operator_lt_false_iff]
    rcases h with h | ⟨hc, h⟩
    · exact Or.inl h
    · exact Or.inr ⟨hc.symm, lexicographical_compare_asymm _ _ h⟩
  have heq : operator_eq m p q = true ↔
      (m p).data_.frames_count = (m q).data_.frames_count ∧
        (m p).data_.frames = (m q).data_.frames := operator_eq_unfold m p q hp hq
  refine ⟨hirr p, ?_, ?_, ?_, ?_⟩
  · rintro ⟨h1, h2⟩
    rw [hasym p q h1] at h2
    exact absurd h2 (by simp)
  · intro h1 h2
    rw [operator_lt_true_iff] at h1 h2 ⊢
    rcases h1 with h1 | ⟨hc1, h1⟩
    · rcases h2 with h2 | ⟨hc2, _⟩
      · exact Or.inl (Nat.lt_trans h1 h2)
      · exact Or.inl (hc2 ▸ h1)
    · rcases h2 with h2 | ⟨hc2, h2⟩
      · exact Or.inl (hc1 ▸ h2)
      · exact Or.inr ⟨hc1.trans hc2, lexicographical_compare_trans _ _ _ h1 h2⟩
  · intro h1 h2 h3 h4
    obtain ⟨c1, f1⟩ := operator_lt_incomparable m p q h1 h2
    obtain ⟨c2, f2⟩ := operator_lt_incomparable m q r h3 h4
    constructor
    · rw [operator_lt_false_iff]
      exact Or.inr ⟨c1.trans c2, by rw [f1, f2]; exact lexicographical_compare_irrefl _⟩
    · rw [operator_lt_false_iff]
      exact Or.inr ⟨(c1.trans c2).symm, by rw [f1, f2]; exact lexicographical_compare_irrefl _⟩
  · cases h1 : operator_lt m p q
    · cases h2 : operator_lt m q p
      · have := operator_lt_incomparable m p q h1 h2
        simp [heq.2 this]
      · have hne : operator_eq m p q = false := by
          cases h3 : operator_eq m p q
          · rfl
          · obtain ⟨c, f⟩ := heq.1 h3
            rw [operator_lt_true_iff] at h2
            rcases h2 with h2 | ⟨_, h2⟩
            · omega
            · rw [f, lexicographical_compare_irrefl] at h2
              exact absurd h2 (by simp)
        simp [hne]
    · have h2 := hasym p q h1
      have hne : operator_eq m p q = false := by
        cases h3 : operator_eq m p q
        · rfl
        · obtain ⟨c, f⟩ := heq.1 h3
          rw [operator_lt_true_iff] at h1
          rcases h1 with h1 | ⟨_, h1⟩
          · omega
          · rw [f, lexicographical_compare_irrefl] at h1
            exact absurd h1 (by simp)
      simp [h2, hne]

/-- C7: copying a valid record into a block with room for its frames gives a record with
the same count and the same addresses, which compares equal to the original and is
ordered neither before nor after it. -/
theorem copy_equal (m : Objects) (p q : Nat) (dst : List Nat) (hp : (m p).data_.valid)
    (hroom : (m p).data_.frames_count ≤ dst.length)
    (hq : (m q).data_ = (m p).data_.copy dst) :
    (m q).data_.frames_count = (m p).data_.frames_count ∧
    (m q).data_.frames = (m p).data_.frames ∧
    operator_eq m q p = true ∧
    operator_lt m q p = false ∧
    operator_lt m p q = false := by
  have hlen := frames_length _ hp
  unfold backtrace_holder.frames at hlen
  have hc : (m q).data_.frames_count = (m p).data_.frames_count := by
    rw [hq]; rfl
  have hb : (m q).data_.buffer =
      (m p).data_.buffer.take (m p).data_.frames_count ++
        dst.drop (m p).data_.frames_count := by
    rw [hq]
    show std_copy _ dst = _
    rw [std_copy_eq _ _ (by rw [hlen]; exact hroom), hlen]
  have hf : (m q).data_.frames = (m p).data_.frames := by
    unfold backtrace_holder.frames
    rw [hc, hb, List.take_append_of_le_length (by rw [hlen])]
    rw [List.take_take]; simp
  have hv : (m q).data_.valid := by
    unfold backtrace_holder.valid backtrace_holder.capacity
    rw [hc, hb, List.length_append, hlen]
    omega
  refine ⟨hc, hf, (operator_eq_unfold m q p hv hp).2 ⟨hc, hf⟩, ?_, ?_⟩
  · rw [operator_lt_unfold, hf]; simp [hc, lexicographical_compare_irrefl]
  · rw [operator_lt_unfold, hf]; simp [hc, lexicographical_compare_irrefl]

/-- Witness of C4 on two distinct objects holding the same frames. -/
theorem operator_eq_spec_witness :
    (sample_objects 1).data_.valid ∧ (sample_objects 2).data_.valid ∧
    ((operator_eq sample_objects 1 2 = true ↔
      (sample_objects 1).data_.frames_count = (sample_objects 2).data_.frames_count ∧
        ∀ i, i < (sample_objects 1).data_.frames_count →
          (sample_objects 1).get_address i = (sample_objects 2).get_address i) ∧
    operator_eq sample_objects 1 1 = true ∧
    operator_eq sample_objects 1 2 = operator_eq sample_objects 2 1) :=
  ⟨by decide, by decide, operator_eq_spec sample_objects 1 2 (by decide) (by decide)⟩

/-- Witness of C6: a record of two frames, one of two frames with a larger second
address, and one of three frames. -/
theorem operator_lt_strict_weak_witness :
    (sample_objects 1).data_.valid ∧ (sample_objects 4).data_.valid ∧
    (operator_lt sample_objects 1 1 = false ∧
    ¬ (operator_lt sample_objects 1 4 = true ∧ operator_lt sample_objects 4 1 = true) ∧
    (operator_lt sample_objects 1 4 = true → operator_lt sample_objects 4 5 = true → operator_lt sample_objects 1 5 = true) ∧
    (operator_lt sample_objects 1 4 = false → operator_lt sample_objects 4 1 = false →
      operator_lt sample_objects 4 5 = false → operator_lt sample_objects 5 4 = false →
        operator_lt sample_objects 1 5 = false ∧ operator_lt sample_objects 5 1 = false) ∧
    ((operator_lt sample_objects 1 4 = true ∧ operator_lt sample_objects 4 1 = false ∧ operator_eq sample_objects 1 4 = false) ∨
     (operator_lt sample_objects 1 4 = false ∧ operator_lt sample_objects 4 1 = true ∧ operator_eq sample_objects 1 4 = false) ∨
     (operator_lt sample_objects 1 4 = false ∧ operator_lt sample_objects 4 1 = false ∧ operator_eq sample_objects 1 4 = true))) :=
  ⟨by decide, by decide, operator_lt_strict_weak sample_objects 1 4 5 (by decide) (by decide)⟩

/-- Witness of C7: the record at address 1 copied into a block of five slots. -/
theorem copy_equal_witness :
    (sample_objects 1).data_.valid ∧
    (sample_objects 1).data_.frames_count ≤ [0, 0, 0, 0, 0].length ∧
    (sample_objects 3).data_ = (sample_objects 1).data_.copy [0, 0, 0, 0, 0] ∧
    ((sample_objects 3).data_.frames_count = (sample_objects 1).data_.frames_count ∧
    (sample_objects 3).data_.frames = (sample_objects 1).data_.frames ∧
    operator_eq sample_objects 3 1 = true ∧
    operator_lt sample_objects 3 1 = false ∧
    operator_lt sample_objects 1 3 = false) :=
  ⟨by decide, by decide, by decide,
    copy_equal sample_objects 1 3 [0, 0, 0, 0, 0] (by decide) (by decide) (by decide)⟩

/-! ## Capture: the claim -/

/-- C8: for a block of at least the header's size and a walker that returns no more than
the `FramesToCapture` it is given, the count passed to the walker (after narrowing to
`ULONG`) and the recorded `frames_count` are at most
`(size - sizeof(backtrace_holder)) / sizeof(void*)`; with no room beyond the header the
recorded count is zero. -/
theorem capture_frames_count_le (P : Platform) (walk : Walker) (hash_combine : Nat → Nat → Nat)
    (memory : List Nat) (size : Nat) (hsize : P.sizeof_backtrace_holder ≤ size)
    (hwalk : ∀ skip n, (walk skip n).count ≤ n) :
    max_frames P size ≤ (size - P.sizeof_backtrace_holder) / P.sizeof_void_ptr ∧
    (backend.backend P walk hash_combine memory size).1.data_.frames_count ≤
      (size - P.sizeof_backtrace_holder) / P.sizeof_void_ptr ∧
    ((size - P.sizeof_backtrace_holder) / P.sizeof_void_ptr = 0 →
      (backend.backend P walk hash_combine memory size).1.data_.frames_count = 0) := by
  have hm : max_frames P size ≤ (size - P.sizeof_backtrace_holder) / P.sizeof_void_ptr := by
    unfold max_frames to_ULONG size_t_sub
    refine le_trans (Nat.mod_le _ _) (Nat.div_le_div_right ?_)
    have e : ∀ k : Nat, size + k - P.sizeof_backtrace_holder =
        (size - P.sizeof_backtrace_holder) + k := by
      intro k; omega
    rw [e, Nat.add_mod_right]
    exact Nat.mod_le _ _
  have hc : (backend.backend P walk hash_combine memory size).1.data_.frames_count ≤
      (size - P.sizeof_backtrace_holder) / P.sizeof_void_ptr := by
    show (walk 0 (max_frames P size)).count ≤ _
    exact le_trans (hwalk 0 _) hm
  exact ⟨hm, hc, fun h0 => by omega⟩

/-- Witness of C8: a 24-byte block on the 64-bit target, room for two addresses. -/
theorem capture_frames_count_le_witness :
    win64.sizeof_backtrace_holder ≤ 24 ∧
    (∀ skip n, (sample_walker skip n).count ≤ n) ∧
    (max_frames win64 24 ≤ (24 - win64.sizeof_backtrace_holder) / win64.sizeof_void_ptr ∧
    (backend.backend win64 sample_walker (fun a b => a + b) [0, 0] 24).1.data_.frames_count ≤
      (24 - win64.sizeof_backtrace_holder) / win64.sizeof_void_ptr ∧
    ((24 - win64.sizeof_backtrace_holder) / win64.sizeof_void_ptr = 0 →
      (backend.backend win64 sample_walker (fun a b => a + b) [0, 0] 24).1.data_.frames_count
        = 0)) :=
  ⟨by decide, fun _ n => Nat.min_le_left n 3,
    capture_frames_count_le win64 sample_walker (fun a b => a + b) [0, 0] 24 (by decide)
      (fun _ n => Nat.min_le_left n 3)⟩

/-! ## Symbol queries: the claims -/

/-- C1: for a frame index at or beyond `frames_count`, `get_name` and `get_source_file`
return the empty text and leave the world as it was: no call is issued, whatever the
service is. -/
theorem out_of_range_text {σ : Type} (S : Service σ) (self : backend) (stack : Nat → Nat)
    (frame : Nat) (w : World σ) (h : frame ≥ self.data_.frames_count) :
    self.get_name S stack frame w = (.ret [], w) ∧
    self.get_source_file S stack frame w = (.ret [], w) := by
  constructor
  · simp [backend.get_name, h]
  · simp [backend.get_source_file, h]

/-- Witness of C1: frame 1 of a record of one frame. -/
theorem out_of_range_text_witness :
    1 ≥ sample_backend.data_.frames_count ∧
    (sample_backend.get_name working_service sample_stack 1 fresh_world =
      (.ret [], fresh_world) ∧
    sample_backend.get_source_file working_service sample_stack 1 fresh_world =
      (.ret [], fresh_world)) :=
  ⟨by decide,
    out_of_range_text working_service sample_backend sample_stack 1 fresh_world (by decide)⟩

/-- C2, on the code: `get_source_line` has no bounds check. For the record of one frame in
a block of two slots and an engine that attaches, frame 1 is out of range, yet the line
query is issued for the leftover word in slot 1 and its answer 42 is returned. -/
theorem get_source_line_out_of_range :
    1 ≥ sample_backend.data_.frames_count ∧
    (sample_backend.get_source_line working_service 1 fresh_world).1 = .ret 42 ∧
    (sample_backend.get_source_line working_service 1 fresh_world).2.queries =
      [Call.GetLineByOffset 13 8192 true false 0 false] := by
  decide

/-- C3: when `try_init_com` returns false, `get_name` and `get_source_file` return the
empty text and `get_source_line` returns 0 for every record and frame index, and no name
or line query is added to the calls issued. -/
theorem attach_failure_degrades {σ : Type} (S : Service σ) (self : backend)
    (stack : Nat → Nat) (frame : Nat) (w : World σ) (h : (try_init_com S { holder_ := 0 } w).1 = .ret false) :
    ((self.get_name S stack frame w).1 = .ret [] ∧
      (self.get_name S stack frame w).2.queries = w.queries) ∧
    ((self.get_source_file S stack frame w).1 = .ret [] ∧
      (self.get_source_file S stack frame w).2.queries = w.queries) ∧
    ((self.get_source_line S frame w).1 = .ret 0 ∧
      (self.get_source_line S frame w).2.queries = w.queries) := by
  have hq := try_init_com_queries S { holder_ := 0 } w
  rcases hx : try_init_com S { holder_ := 0 } w with ⟨o, i, v⟩
  rw [hx] at h hq
  simp only at h hq
  subst h
  refine ⟨?_, ?_, ?_⟩
  · by_cases hf : frame ≥ self.data_.frames_count
    · simp [backend.get_name, hf]
    · simp [backend.get_name, hf, hx, destroy_queries, hq]
  · by_cases hf : frame ≥ self.data_.frames_count
    · simp [backend.get_source_file, hf]
    · simp [backend.get_source_file, hf, hx, destroy_queries, hq]
  · simp [backend.get_source_line, hx, destroy_queries, hq]

/-- Witness of C3: the engine that refuses `AttachProcess`, on a valid frame. -/
theorem attach_failure_degrades_witness :
    (try_init_com refusing_service { holder_ := 0 } fresh_world).1 = .ret false ∧
    (((sample_backend.get_name refusing_service sample_stack 0 fresh_world).1 = .ret [] ∧
      (sample_backend.get_name refusing_service sample_stack 0 fresh_world).2.queries =
        fresh_world.queries) ∧
    ((sample_backend.get_source_file refusing_service sample_stack 0 fresh_world).1 = .ret [] ∧
      (sample_backend.get_source_file refusing_service sample_stack 0 fresh_world).2.queries =
        fresh_world.queries) ∧
    ((sample_backend.get_source_line refusing_service 0 fresh_world).1 = .ret 0 ∧
      (sample_backend.get_source_line refusing_service 0 fresh_world).2.queries =
        fresh_world.queries)) :=
  ⟨by decide, attach_failure_degrades refusing_service sample_backend sample_stack 0 fresh_world
    (by decide)⟩

/-- C10, on the code: the result of `DebugCreate` is not checked. On an absent session and
an engine whose `DebugCreate` fails, leaving the client pointer null, `try_init_com`
dereferences the null `iclient` in `iclient->QueryInterface`: a fault, not `false`, after
the two calls `CoInitializeEx` and `DebugCreate`. -/
theorem try_init_com_DebugCreate_failure :
    (absent_service.DebugCreate (absent_service.CoInitializeEx fresh_world.svc)).1 =
      { hr := E_FAIL, ptr := 0 } ∧
    (try_init_com absent_service { holder_ := 0 } fresh_world).1 = .fault ∧
    (try_init_com absent_service { holder_ := 0 } fresh_world).2.2.log =
      [Call.CoInitializeEx, Call.DebugCreate] := by
  decide


set_option maxRecDepth 100000

/-- The three returning paths of `get_name` on concrete engines: success at the first
query gives the text before the terminator; a failed first query asking for five units
gives the whole five-unit retry buffer, terminator included, after two queries. -/
theorem get_name_examples :
    (sample_backend.get_name working_service sample_stack 0 fresh_world).1 =
      .ret [109, 97, 105, 110] ∧
    (sample_backend.get_name working_service sample_stack 0 fresh_world).2.queries =
      [Call.GetNameByOffset 13 4096 256] ∧
    (sample_backend.get_name retrying_service sample_stack 0 fresh_world).1 =
      .ret [109, 97, 105, 110, 0] ∧
    (sample_backend.get_name retrying_service sample_stack 0 fresh_world).2.queries =
      [Call.GetNameByOffset 13 4096 256, Call.GetNameByOffset 13 4096 5] ∧
    (sample_backend.get_source_file retrying_service sample_stack 0 fresh_world).1 =
      .ret [97, 46, 99, 0, 0] := by
  decide

end Stacktrace
